import Mathlib

/-!
Verification of the zap logging adapter for the YDB driver trace (`driver.go`).

`Driver(l, details)` builds a table of trace hooks.  Every hook emits structured
log lines on a zap logger.  The embedding below makes the two effects of the
source explicit:

* an emission `l.Debug(..)`, `l.Info(..)`, `l.Warn(..)`, `l.Error(..)` is a value
  `Entry` (logger name, level, message, ordered fields); a hook returns the list
  of the entries it emitted, in order;
* `time.Now()` / `time.Since(start)` read a clock; the reading is an explicit
  argument of the hook and of every closure the hook returns.

A hook slot of the table that the source leaves `nil` is `none`.
-/

namespace YdbZap

/-! ## The consumed interfaces: zap fields, levels, loggers, time -/

/-- A Go `error` value that is not nil; a possibly-nil error is `Option GoError`. -/
structure GoError where
  text : String
deriving DecidableEq, Repr

/-- Clock readings and `time.Time` values, in nanoseconds. -/
abbrev Time := Int

/-- Go `time.Duration`: a signed 64-bit count of nanoseconds. -/
abbrev Duration := Int

/-- The largest `time.Duration`. -/
def maxDuration : Duration := 2 ^ 63 - 1

/-- The smallest `time.Duration`. -/
def minDuration : Duration := -(2 ^ 63)

/-- The function `time.Since(start)` with the clock reading `now` made explicit.  The
difference of the two readings, saturated to the range of `time.Duration` as the
standard library does. -/
def timeSince (start now : Time) : Duration :=
  let d := now - start
  if d < minDuration then minDuration
  else if maxDuration < d then maxDuration
  else d

/-- A clock reading the runtime can produce: a non-negative signed 64-bit number. -/
def validClock (t : Time) : Prop := 0 ≤ t ∧ t < 2 ^ 63

instance (t : Time) : Decidable (validClock t) := by
  unfold validClock; infer_instance

/-- The four emission levels of the sink. -/
inductive Level
  | debug
  | info
  | warn
  | error
deriving DecidableEq, Repr

/-- A typed key/value field of a log line (`zap.Field`). -/
inductive Field
  | str (key val : String)
  | duration (key : String) (d : Duration)
  | time (key : String) (t : Time)
  | int (key : String) (n : Int)
  | bool (key : String) (b : Bool)
  | err (key : String) (e : GoError)
  | skip
deriving DecidableEq, Repr

/-- The constructor `zap.String`. -/
def zapString (key val : String) : Field := Field.str key val

/-- The constructor `zap.Duration`. -/
def zapDuration (key : String) (d : Duration) : Field := Field.duration key d

/-- The constructor `zap.Time`. -/
def zapTime (key : String) (t : Time) : Field := Field.time key t

/-- The constructor `zap.Int`. -/
def zapInt (key : String) (n : Int) : Field := Field.int key n

/-- The constructor `zap.Bool`. -/
def zapBool (key : String) (b : Bool) : Field := Field.bool key b

/-- The constructor `zap.NamedError`: a nil error gives the no-op field `zap.Skip()`. -/
def zapNamedError (key : String) (e : Option GoError) : Field :=
  match e with
  | none => Field.skip
  | some x => Field.err key x

/-- The constructor `zap.Error(err)`, which is `zap.NamedError("error", err)`. -/
def zapError (e : Option GoError) : Field := zapNamedError "error" e

/-- One emitted log line: the name of the emitting logger, the level of the call,
the message and the fields in the order they were passed. -/
structure Entry where
  logger : String
  level : Level
  msg : String
  fields : List Field
deriving DecidableEq, Repr

/-- A zap logger, as far as the adapter can tell two loggers apart: by name. -/
structure Logger where
  name : String
deriving DecidableEq, Repr

/-- The method `(*zap.Logger).Named`: appends a dot-separated name segment; an empty
segment returns the logger unchanged. -/
def Logger.Named (l : Logger) (s : String) : Logger :=
  if s = "" then l
  else if l.name = "" then { name := s }
  else { name := l.name ++ "." ++ s }

/-- The call `l.Debug(msg, fields...)`. -/
def Logger.Debug (l : Logger) (msg : String) (fields : List Field) : List Entry :=
  [{ logger := l.name, level := Level.debug, msg := msg, fields := fields }]

/-- The call `l.Info(msg, fields...)`. -/
def Logger.Info (l : Logger) (msg : String) (fields : List Field) : List Entry :=
  [{ logger := l.name, level := Level.info, msg := msg, fields := fields }]

/-- The call `l.Warn(msg, fields...)`. -/
def Logger.Warn (l : Logger) (msg : String) (fields : List Field) : List Entry :=
  [{ logger := l.name, level := Level.warn, msg := msg, fields := fields }]

/-- The call `l.Error(msg, fields...)`. -/
def Logger.Error (l : Logger) (msg : String) (fields : List Field) : List Entry :=
  [{ logger := l.name, level := Level.error, msg := msg, fields := fields }]

/-! ## The consumed interface: the trace package -/

/-- The type `trace.Details`: an unsigned bitmask. -/
abbrev Details := Nat

/-- Everything `driver.go` uses but does not define: the package constant `version`,
the four category masks of the trace package, the redaction `log.Secret` and the
rendering `String()` of a connection state. -/
structure Deps where
  version : String
  DriverNetEvents : Details
  DriverCoreEvents : Details
  DriverClusterEvents : Details
  DriverCredentialsEvents : Details
  Secret : String → String
  ConnStateString : Int → String

/-- Modelled from the spec: the endpoint descriptor `trace.Endpoint` (declared in the
trace package), "endpoint descriptors with accessors for
address/location/last-updated/is-local-datacenter", exposing immutable fields. -/
structure Endpoint where
  address : String
  lastUpdated : Time
  location : String
  localDC : Bool
deriving DecidableEq, Repr

/-- The accessor `Address()`. -/
def Endpoint.Address (e : Endpoint) : String := e.address

/-- The accessor `LastUpdated()`. -/
def Endpoint.LastUpdated (e : Endpoint) : Time := e.lastUpdated

/-- The accessor `Location()`. -/
def Endpoint.Location (e : Endpoint) : String := e.location

/-- The accessor `LocalDC()`. -/
def Endpoint.LocalDC (e : Endpoint) : Bool := e.localDC

/-- Modelled from the spec: the connection state `trace.ConnState`, a "state
enumeration with a human-readable rendering"; the rendering is `Deps.ConnStateString`. -/
structure ConnState where
  code : Int
deriving DecidableEq, Repr

/-- The method `State.String()`. -/
def ConnState.String (c : Deps) (s : ConnState) : String := c.ConnStateString s.code

/-- Modelled from the spec: `trace.NetReadStartInfo`. -/
structure NetReadStartInfo where
  Address : String

/-- Modelled from the spec: `trace.NetReadDoneInfo`. -/
structure NetReadDoneInfo where
  Received : Int
  Error : Option GoError

/-- Modelled from the spec: `trace.NetWriteStartInfo`. -/
structure NetWriteStartInfo where
  Address : String

/-- Modelled from the spec: `trace.NetWriteDoneInfo`. -/
structure NetWriteDoneInfo where
  Sent : Int
  Error : Option GoError

/-- Modelled from the spec: `trace.NetDialStartInfo`. -/
structure NetDialStartInfo where
  Address : String

/-- Modelled from the spec: `trace.NetDialDoneInfo`. -/
structure NetDialDoneInfo where
  Error : Option GoError

/-- Modelled from the spec: `trace.NetCloseStartInfo`. -/
structure NetCloseStartInfo where
  Address : String

/-- Modelled from the spec: `trace.NetCloseDoneInfo`. -/
structure NetCloseDoneInfo where
  Error : Option GoError

/-- Modelled from the spec: `trace.ConnTakeStartInfo`. -/
structure ConnTakeStartInfo where
  Endpoint : Endpoint

/-- Modelled from the spec: `trace.ConnTakeDoneInfo`. -/
structure ConnTakeDoneInfo where
  Error : Option GoError

/-- Modelled from the spec: `trace.ConnUsagesChangeInfo`. -/
structure ConnUsagesChangeInfo where
  Endpoint : Endpoint
  Usages : Int

/-- Modelled from the spec: `trace.ConnStateChangeStartInfo`. -/
structure ConnStateChangeStartInfo where
  Endpoint : Endpoint
  State : ConnState

/-- Modelled from the spec: `trace.ConnStateChangeDoneInfo`. -/
structure ConnStateChangeDoneInfo where
  State : ConnState

/-- Modelled from the spec: `trace.RepeaterTickStartInfo`. -/
structure RepeaterTickStartInfo where
  Name : String
  Event : String

/-- Modelled from the spec: `trace.RepeaterTickDoneInfo`. -/
structure RepeaterTickDoneInfo where
  Error : Option GoError

/-- Modelled from the spec: `trace.ConnInvokeStartInfo`; `Method` is a string type. -/
structure ConnInvokeStartInfo where
  Endpoint : Endpoint
  Method : String

/-- Modelled from the spec: `trace.ConnInvokeDoneInfo`. -/
structure ConnInvokeDoneInfo where
  Error : Option GoError

/-- Modelled from the spec: `trace.ConnNewStreamStartInfo`; `Method` is a string type. -/
structure ConnNewStreamStartInfo where
  Endpoint : Endpoint
  Method : String

/-- Modelled from the spec: `trace.ConnNewStreamRecvInfo`. -/
structure ConnNewStreamRecvInfo where
  Error : Option GoError

/-- Modelled from the spec: `trace.ConnNewStreamDoneInfo`. -/
structure ConnNewStreamDoneInfo where
  Error : Option GoError

/-- Modelled from the spec: `trace.ClusterInitStartInfo` (no field is read). -/
structure ClusterInitStartInfo where

/-- Modelled from the spec: `trace.ClusterInitDoneInfo` (no field is read). -/
structure ClusterInitDoneInfo where

/-- Modelled from the spec: `trace.ClusterCloseStartInfo` (no field is read). -/
structure ClusterCloseStartInfo where

/-- Modelled from the spec: `trace.ClusterCloseDoneInfo`. -/
structure ClusterCloseDoneInfo where
  Error : Option GoError

/-- Modelled from the spec: `trace.ClusterGetStartInfo` (no field is read). -/
structure ClusterGetStartInfo where

/-- Modelled from the spec: `trace.ClusterGetDoneInfo`. -/
structure ClusterGetDoneInfo where
  Endpoint : Endpoint
  Error : Option GoError

/-- Modelled from the spec: `trace.ClusterInsertStartInfo`. -/
structure ClusterInsertStartInfo where
  Endpoint : Endpoint

/-- Modelled from the spec: `trace.ClusterInsertDoneInfo`. -/
structure ClusterInsertDoneInfo where
  State : ConnState

/-- Modelled from the spec: `trace.ClusterRemoveStartInfo`. -/
structure ClusterRemoveStartInfo where
  Endpoint : Endpoint

/-- Modelled from the spec: `trace.ClusterRemoveDoneInfo`. -/
structure ClusterRemoveDoneInfo where
  State : ConnState

/-- Modelled from the spec: `trace.ClusterUpdateStartInfo`. -/
structure ClusterUpdateStartInfo where
  Endpoint : Endpoint

/-- Modelled from the spec: `trace.ClusterUpdateDoneInfo`. -/
structure ClusterUpdateDoneInfo where
  State : ConnState

/-- Modelled from the spec: `trace.PessimizeNodeStartInfo`. -/
structure PessimizeNodeStartInfo where
  Endpoint : Endpoint
  Cause : Option GoError

/-- Modelled from the spec: `trace.PessimizeNodeDoneInfo`. -/
structure PessimizeNodeDoneInfo where
  State : ConnState

/-- Modelled from the spec: `trace.GetCredentialsStartInfo` (no field is read). -/
structure GetCredentialsStartInfo where

/-- Modelled from the spec: `trace.GetCredentialsDoneInfo`. -/
structure GetCredentialsDoneInfo where
  Token : String
  Error : Option GoError

/-- A completion closure: called with the completion info and the clock reading of
its `time.Since`, it returns the lines it emitted. -/
abbrev DoneHook (D : Type) := D → Time → List Entry

/-- A paired hook: called with the start info and the clock reading of its
`time.Now()`, it returns the lines it emitted and the completion closure. -/
abbrev PairHook (S D : Type) := S → Time → List Entry × DoneHook D

/-- The three-level stream hook: start, intermediate receive, final completion. -/
abbrev ChainHook (S R D : Type) := S → Time → List Entry × (R → Time → List Entry × DoneHook D)

/-- The hook table `trace.Driver`, restricted to the slots `driver.go` assigns.  An
unassigned (nil) slot is `none`. -/
structure TraceDriver where
  OnNetRead : Option (PairHook NetReadStartInfo NetReadDoneInfo) := none
  OnNetWrite : Option (PairHook NetWriteStartInfo NetWriteDoneInfo) := none
  OnNetDial : Option (PairHook NetDialStartInfo NetDialDoneInfo) := none
  OnNetClose : Option (PairHook NetCloseStartInfo NetCloseDoneInfo) := none
  OnConnTake : Option (PairHook ConnTakeStartInfo ConnTakeDoneInfo) := none
  OnConnUsagesChange : Option (ConnUsagesChangeInfo → List Entry) := none
  OnConnStateChange : Option (PairHook ConnStateChangeStartInfo ConnStateChangeDoneInfo) := none
  OnRepeaterWakeUp : Option (PairHook RepeaterTickStartInfo RepeaterTickDoneInfo) := none
  OnConnInvoke : Option (PairHook ConnInvokeStartInfo ConnInvokeDoneInfo) := none
  OnConnNewStream :
    Option (ChainHook ConnNewStreamStartInfo ConnNewStreamRecvInfo ConnNewStreamDoneInfo) := none
  OnClusterInit : Option (PairHook ClusterInitStartInfo ClusterInitDoneInfo) := none
  OnClusterClose : Option (PairHook ClusterCloseStartInfo ClusterCloseDoneInfo) := none
  OnClusterGet : Option (PairHook ClusterGetStartInfo ClusterGetDoneInfo) := none
  OnClusterInsert : Option (PairHook ClusterInsertStartInfo ClusterInsertDoneInfo) := none
  OnClusterRemove : Option (PairHook ClusterRemoveStartInfo ClusterRemoveDoneInfo) := none
  OnClusterUpdate : Option (PairHook ClusterUpdateStartInfo ClusterUpdateDoneInfo) := none
  OnPessimizeNode : Option (PairHook PessimizeNodeStartInfo PessimizeNodeDoneInfo) := none
  OnGetCredentials : Option (PairHook GetCredentialsStartInfo GetCredentialsDoneInfo) := none

/-! ## The hooks of `Driver`, one definition per closure assigned to the table -/

/-- The hook `t.OnNetRead`; `l` is the logger named `net`. -/
def OnNetRead (c : Deps) (l : Logger) : PairHook NetReadStartInfo NetReadDoneInfo :=
  fun info now =>
    let address := info.Address
    let start := now
    (l.Debug "try to read" [
        zapString "version" c.version,
        zapString "address" address],
      fun info now =>
        if info.Error = none then
          l.Debug "read" [
            zapString "version" c.version,
            zapDuration "latency" (timeSince start now),
            zapString "address" address,
            zapInt "received" info.Received]
        else
          l.Warn "read failed" [
            zapString "version" c.version,
            zapDuration "latency" (timeSince start now),
            zapString "address" address,
            zapInt "received" info.Received,
            zapError info.Error])

/-- The hook `t.OnNetWrite`. -/
def OnNetWrite (c : Deps) (l : Logger) : PairHook NetWriteStartInfo NetWriteDoneInfo :=
  fun info now =>
    let address := info.Address
    let start := now
    (l.Debug "try to write" [
        zapString "version" c.version,
        zapString "address" address],
      fun info now =>
        if info.Error = none then
          l.Debug "wrote" [
            zapString "version" c.version,
            zapDuration "latency" (timeSince start now),
            zapString "address" address,
            zapInt "sent" info.Sent]
        else
          l.Warn "write failed" [
            zapString "version" c.version,
            zapDuration "latency" (timeSince start now),
            zapString "address" address,
            zapInt "sent" info.Sent,
            zapError info.Error])

/-- The hook `t.OnNetDial`. -/
def OnNetDial (c : Deps) (l : Logger) : PairHook NetDialStartInfo NetDialDoneInfo :=
  fun info now =>
    let address := info.Address
    let start := now
    (l.Debug "try to dial" [
        zapString "version" c.version,
        zapString "address" address],
      fun info now =>
        if info.Error = none then
          l.Debug "dialed" [
            zapString "version" c.version,
            zapDuration "latency" (timeSince start now),
            zapString "address" address]
        else
          l.Warn "dial failed" [
            zapString "version" c.version,
            zapDuration "latency" (timeSince start now),
            zapString "address" address,
            zapError info.Error])

/-- The hook `t.OnNetClose`. -/
def OnNetClose (c : Deps) (l : Logger) : PairHook NetCloseStartInfo NetCloseDoneInfo :=
  fun info now =>
    let address := info.Address
    let start := now
    (l.Debug "try to close" [
        zapString "version" c.version,
        zapString "address" address],
      fun info now =>
        if info.Error = none then
          l.Debug "closed" [
            zapDuration "latency" (timeSince start now),
            zapString "version" c.version,
            zapString "address" address]
        else
          l.Warn "close failed" [
            zapDuration "latency" (timeSince start now),
            zapString "version" c.version,
            zapString "address" address,
            zapError info.Error])

/-- The hook `t.OnConnTake`; `l` is the logger named `core`. -/
def OnConnTake (c : Deps) (l : Logger) : PairHook ConnTakeStartInfo ConnTakeDoneInfo :=
  fun info now =>
    let endpoint := info.Endpoint
    let start := now
    (l.Debug "try to take conn" [
        zapString "version" c.version,
        zapString "address" endpoint.Address,
        zapTime "lastUpdated" endpoint.LastUpdated,
        zapString "location" endpoint.Location,
        zapBool "dataCenter" endpoint.LocalDC],
      fun info now =>
        if info.Error = none then
          l.Debug "conn took" [
            zapString "version" c.version,
            zapDuration "latency" (timeSince start now),
            zapString "address" endpoint.Address,
            zapTime "lastUpdated" endpoint.LastUpdated,
            zapString "location" endpoint.Location,
            zapBool "dataCenter" endpoint.LocalDC]
        else
          l.Warn "conn take failed" [
            zapString "version" c.version,
            zapDuration "latency" (timeSince start now),
            zapString "address" endpoint.Address,
            zapTime "lastUpdated" endpoint.LastUpdated,
            zapString "location" endpoint.Location,
            zapBool "dataCenter" endpoint.LocalDC,
            zapError info.Error])

/-- The hook `t.OnConnUsagesChange`: a single call, no completion closure. -/
def OnConnUsagesChange (c : Deps) (l : Logger) : ConnUsagesChangeInfo → List Entry :=
  fun info =>
    l.Debug "conn usages changed" [
      zapString "version" c.version,
      zapString "address" info.Endpoint.Address,
      zapTime "lastUpdated" info.Endpoint.LastUpdated,
      zapString "location" info.Endpoint.Location,
      zapBool "dataCenter" info.Endpoint.LocalDC,
      zapInt "usages" info.Usages]

/-- The hook `t.OnConnStateChange`. -/
def OnConnStateChange (c : Deps) (l : Logger) :
    PairHook ConnStateChangeStartInfo ConnStateChangeDoneInfo :=
  fun info now =>
    let endpoint := info.Endpoint
    let start := now
    (l.Debug "conn state change" [
        zapString "version" c.version,
        zapString "address" endpoint.Address,
        zapTime "lastUpdated" endpoint.LastUpdated,
        zapString "location" endpoint.Location,
        zapBool "dataCenter" endpoint.LocalDC,
        zapString "state before" (info.State.String c)],
      fun info now =>
        l.Debug "conn state changed" [
          zapString "version" c.version,
          zapDuration "latency" (timeSince start now),
          zapString "address" endpoint.Address,
          zapTime "lastUpdated" endpoint.LastUpdated,
          zapString "location" endpoint.Location,
          zapBool "dataCenter" endpoint.LocalDC,
          zapString "state after" (info.State.String c)])

/-- The hook `t.OnRepeaterWakeUp`. -/
def OnRepeaterWakeUp (c : Deps) (l : Logger) :
    PairHook RepeaterTickStartInfo RepeaterTickDoneInfo :=
  fun info now =>
    let name := info.Name
    let event := info.Event
    let start := now
    (l.Info "repeater wake up" [
        zapString "version" c.version,
        zapString "name" name,
        zapString "event" event],
      fun info now =>
        if info.Error = none then
          l.Info "repeater wake up done" [
            zapString "version" c.version,
            zapDuration "latency" (timeSince start now),
            zapString "name" name,
            zapString "event" event]
        else
          l.Info "repeater wake up fail" [
            zapString "version" c.version,
            zapDuration "latency" (timeSince start now),
            zapString "name" name,
            zapString "event" event,
            zapError info.Error])

/-- The hook `t.OnConnInvoke`. -/
def OnConnInvoke (c : Deps) (l : Logger) : PairHook ConnInvokeStartInfo ConnInvokeDoneInfo :=
  fun info now =>
    let endpoint := info.Endpoint
    let method := info.Method
    let start := now
    (l.Debug "try to invoke" [
        zapString "version" c.version,
        zapString "address" endpoint.Address,
        zapTime "lastUpdated" endpoint.LastUpdated,
        zapString "location" endpoint.Location,
        zapBool "dataCenter" endpoint.LocalDC,
        zapString "method" method],
      fun info now =>
        if info.Error = none then
          l.Debug "invoked" [
            zapString "version" c.version,
            zapDuration "latency" (timeSince start now),
            zapString "address" endpoint.Address,
            zapTime "lastUpdated" endpoint.LastUpdated,
            zapString "location" endpoint.Location,
            zapBool "dataCenter" endpoint.LocalDC,
            zapString "method" method]
        else
          l.Warn "invoke failed" [
            zapString "version" c.version,
            zapDuration "latency" (timeSince start now),
            zapString "address" endpoint.Address,
            zapTime "lastUpdated" endpoint.LastUpdated,
            zapString "location" endpoint.Location,
            zapBool "dataCenter" endpoint.LocalDC,
            zapString "method" method,
            zapError info.Error])

/-- The hook `t.OnConnNewStream`: start, then intermediate receive, then final completion. -/
def OnConnNewStream (c : Deps) (l : Logger) :
    ChainHook ConnNewStreamStartInfo ConnNewStreamRecvInfo ConnNewStreamDoneInfo :=
  fun info now =>
    let endpoint := info.Endpoint
    let method := info.Method
    let start := now
    (l.Debug "try to streaming" [
        zapString "version" c.version,
        zapString "address" endpoint.Address,
        zapTime "lastUpdated" endpoint.LastUpdated,
        zapString "location" endpoint.Location,
        zapBool "dataCenter" endpoint.LocalDC,
        zapString "method" method],
      fun info now =>
        ((if info.Error = none then
            l.Debug "streaming intermediate receive" [
              zapString "version" c.version,
              zapDuration "latency" (timeSince start now),
              zapString "address" endpoint.Address,
              zapTime "lastUpdated" endpoint.LastUpdated,
              zapString "location" endpoint.Location,
              zapBool "dataCenter" endpoint.LocalDC,
              zapString "method" method]
          else
            l.Warn "streaming intermediate receive failed" [
              zapString "version" c.version,
              zapDuration "latency" (timeSince start now),
              zapString "address" endpoint.Address,
              zapTime "lastUpdated" endpoint.LastUpdated,
              zapString "location" endpoint.Location,
              zapBool "dataCenter" endpoint.LocalDC,
              zapString "method" method,
              zapError info.Error]),
          fun info now =>
            if info.Error = none then
              l.Debug "streaming finished" [
                zapString "version" c.version,
                zapDuration "latency" (timeSince start now),
                zapString "address" endpoint.Address,
                zapTime "lastUpdated" endpoint.LastUpdated,
                zapString "location" endpoint.Location,
                zapBool "dataCenter" endpoint.LocalDC,
                zapString "method" method]
            else
              l.Warn "streaming failed" [
                zapString "version" c.version,
                zapDuration "latency" (timeSince start now),
                zapString "address" endpoint.Address,
                zapTime "lastUpdated" endpoint.LastUpdated,
                zapString "location" endpoint.Location,
                zapBool "dataCenter" endpoint.LocalDC,
                zapString "method" method,
                zapError info.Error]))

/-- The hook `t.OnClusterInit`; `l` is the logger named `cluster`. -/
def OnClusterInit (c : Deps) (l : Logger) : PairHook ClusterInitStartInfo ClusterInitDoneInfo :=
  fun _info now =>
    let start := now
    (l.Debug "init start" [
        zapString "version" c.version],
      fun _info now =>
        l.Info "init done" [
          zapString "version" c.version,
          zapDuration "latency" (timeSince start now)])

/-- The hook `t.OnClusterClose`. -/
def OnClusterClose (c : Deps) (l : Logger) :
    PairHook ClusterCloseStartInfo ClusterCloseDoneInfo :=
  fun _info now =>
    let start := now
    (l.Debug "close start" [
        zapString "version" c.version],
      fun info now =>
        if info.Error = none then
          l.Debug "close done" [
            zapString "version" c.version,
            zapDuration "latency" (timeSince start now)]
        else
          l.Warn "close failed" [
            zapString "version" c.version,
            zapDuration "latency" (timeSince start now),
            zapError info.Error])

/-- The hook `t.OnClusterGet`. -/
def OnClusterGet (c : Deps) (l : Logger) : PairHook ClusterGetStartInfo ClusterGetDoneInfo :=
  fun _info now =>
    let start := now
    (l.Debug "try to get conn" [
        zapString "version" c.version],
      fun info now =>
        if info.Error = none then
          l.Debug "conn got" [
            zapString "version" c.version,
            zapDuration "latency" (timeSince start now),
            zapString "address" info.Endpoint.Address,
            zapBool "local" info.Endpoint.LocalDC]
        else
          l.Warn "conn get failed" [
            zapString "version" c.version,
            zapDuration "latency" (timeSince start now),
            zapError info.Error])

/-- The hook `t.OnClusterInsert`. -/
def OnClusterInsert (c : Deps) (l : Logger) : PairHook ClusterInsertStartInfo ClusterInsertDoneInfo :=
  fun info now =>
    let endpoint := info.Endpoint
    let start := now
    (l.Debug "inserting" [
        zapString "version" c.version,
        zapString "address" endpoint.Address,
        zapTime "lastUpdated" endpoint.LastUpdated,
        zapString "location" endpoint.Location,
        zapBool "localDC" endpoint.LocalDC],
      fun info now =>
        l.Info "inserted" [
          zapString "version" c.version,
          zapDuration "latency" (timeSince start now),
          zapString "address" endpoint.Address,
          zapTime "lastUpdated" endpoint.LastUpdated,
          zapString "location" endpoint.Location,
          zapBool "localDC" endpoint.LocalDC,
          zapString "state" (info.State.String c)])

/-- The hook `t.OnClusterRemove`. -/
def OnClusterRemove (c : Deps) (l : Logger) : PairHook ClusterRemoveStartInfo ClusterRemoveDoneInfo :=
  fun info now =>
    let endpoint := info.Endpoint
    let start := now
    (l.Debug "removing" [
        zapString "version" c.version,
        zapString "address" endpoint.Address,
        zapTime "lastUpdated" endpoint.LastUpdated,
        zapString "location" endpoint.Location,
        zapBool "localDC" endpoint.LocalDC],
      fun info now =>
        l.Info "removed" [
          zapString "version" c.version,
          zapDuration "latency" (timeSince start now),
          zapString "address" endpoint.Address,
          zapTime "lastUpdated" endpoint.LastUpdated,
          zapString "location" endpoint.Location,
          zapBool "localDC" endpoint.LocalDC,
          zapString "state" (info.State.String c)])

/-- The hook `t.OnClusterUpdate`. -/
def OnClusterUpdate (c : Deps) (l : Logger) : PairHook ClusterUpdateStartInfo ClusterUpdateDoneInfo :=
  fun info now =>
    let endpoint := info.Endpoint
    let start := now
    (l.Debug "updating" [
        zapString "version" c.version,
        zapString "address" endpoint.Address,
        zapTime "lastUpdated" endpoint.LastUpdated,
        zapString "location" endpoint.Location,
        zapBool "localDC" endpoint.LocalDC],
      fun info now =>
        l.Info "updated" [
          zapString "version" c.version,
          zapDuration "latency" (timeSince start now),
          zapString "address" endpoint.Address,
          zapTime "lastUpdated" endpoint.LastUpdated,
          zapString "location" endpoint.Location,
          zapBool "localDC" endpoint.LocalDC,
          zapString "state" (info.State.String c)])

/-- The hook `t.OnPessimizeNode`. -/
def OnPessimizeNode (c : Deps) (l : Logger) :
    PairHook PessimizeNodeStartInfo PessimizeNodeDoneInfo :=
  fun info now =>
    let endpoint := info.Endpoint
    let start := now
    (l.Warn "pessimizing" [
        zapString "version" c.version,
        zapString "address" endpoint.Address,
        zapTime "lastUpdated" endpoint.LastUpdated,
        zapString "location" endpoint.Location,
        zapBool "localDC" endpoint.LocalDC,
        zapNamedError "cause" info.Cause],
      fun info now =>
        l.Warn "pessimized" [
          zapString "version" c.version,
          zapDuration "latency" (timeSince start now),
          zapString "address" endpoint.Address,
          zapTime "lastUpdated" endpoint.LastUpdated,
          zapString "location" endpoint.Location,
          zapBool "localDC" endpoint.LocalDC,
          zapString "state" (info.State.String c)])

/-- The hook `t.OnGetCredentials`; `l` is the logger named `credentials`. -/
def OnGetCredentials (c : Deps) (l : Logger) :
    PairHook GetCredentialsStartInfo GetCredentialsDoneInfo :=
  fun _info now =>
    let start := now
    (l.Debug "getting" [
        zapString "version" c.version],
      fun info now =>
        if info.Error = none then
          l.Debug "got" [
            zapString "version" c.version,
            zapDuration "latency" (timeSince start now),
            zapString "token" (c.Secret info.Token)]
        else
          l.Error "get failed" [
            zapString "version" c.version,
            zapDuration "latency" (timeSince start now),
            zapError info.Error])

/-! ## `Driver` -/

/-- The network block of `Driver`: run when `details&trace.DriverNetEvents != 0`. -/
def Driver.net (c : Deps) (l : Logger) (details : Details) (t : TraceDriver) : TraceDriver :=
  if details &&& c.DriverNetEvents ≠ 0 then
    let l := l.Named "net"
    { t with
      OnNetRead := some (OnNetRead c l)
      OnNetWrite := some (OnNetWrite c l)
      OnNetDial := some (OnNetDial c l)
      OnNetClose := some (OnNetClose c l) }
  else t

/-- The core block of `Driver`: run when `details&trace.DriverCoreEvents != 0`. -/
def Driver.core (c : Deps) (l : Logger) (details : Details) (t : TraceDriver) : TraceDriver :=
  if details &&& c.DriverCoreEvents ≠ 0 then
    let l := l.Named "core"
    { t with
      OnConnTake := some (OnConnTake c l)
      OnConnUsagesChange := some (OnConnUsagesChange c l)
      OnConnStateChange := some (OnConnStateChange c l)
      OnRepeaterWakeUp := some (OnRepeaterWakeUp c l)
      OnConnInvoke := some (OnConnInvoke c l)
      OnConnNewStream := some (OnConnNewStream c l) }
  else t

/-- The cluster block of `Driver`: run when `details&trace.DriverClusterEvents != 0`. -/
def Driver.cluster (c : Deps) (l : Logger) (details : Details) (t : TraceDriver) :
    TraceDriver :=
  if details &&& c.DriverClusterEvents ≠ 0 then
    let l := l.Named "cluster"
    { t with
      OnClusterInit := some (OnClusterInit c l)
      OnClusterClose := some (OnClusterClose c l)
      OnClusterGet := some (OnClusterGet c l)
      OnClusterInsert := some (OnClusterInsert c l)
      OnClusterRemove := some (OnClusterRemove c l)
      OnClusterUpdate := some (OnClusterUpdate c l)
      OnPessimizeNode := some (OnPessimizeNode c l) }
  else t

/-- The credentials block of `Driver`: run when
`details&trace.DriverCredentialsEvents != 0`. -/
def Driver.credentials (c : Deps) (l : Logger) (details : Details) (t : TraceDriver) :
    TraceDriver :=
  if details &&& c.DriverCredentialsEvents ≠ 0 then
    let l := l.Named "credentials"
    { t with OnGetCredentials := some (OnGetCredentials c l) }
  else t

/-- The constructor `Driver(l, details)`: the logger is renamed `ydb.driver`, the table
starts empty and the four blocks run in source order. -/
def Driver (c : Deps) (l : Logger) (details : Details) : TraceDriver :=
  let l := (l.Named "ydb").Named "driver"
  let t : TraceDriver := {}
  let t := Driver.net c l details t
  let t := Driver.core c l details t
  let t := Driver.cluster c l details t
  let t := Driver.credentials c l details t
  t

/-! ## The host driver: how the hooks of a table are invoked

The trace facility calls a slot only when it is set, calls the start hook first and
the returned closure at completion.  An `Event` is one such traced operation with
everything the host passes in and the clock readings of the calls. -/

/-- The four categories selected by the bitmask. -/
inductive Category
  | network
  | core
  | cluster
  | credentials
deriving DecidableEq, Repr

/-- The mask `Driver` tests for a category. -/
def Category.mask (c : Deps) : Category → Details
  | Category.network => c.DriverNetEvents
  | Category.core => c.DriverCoreEvents
  | Category.cluster => c.DriverClusterEvents
  | Category.credentials => c.DriverCredentialsEvents

/-- The slots of the table that `Driver` can assign. -/
inductive HookName
  | NetRead
  | NetWrite
  | NetDial
  | NetClose
  | ConnTake
  | ConnUsagesChange
  | ConnStateChange
  | RepeaterWakeUp
  | ConnInvoke
  | ConnNewStream
  | ClusterInit
  | ClusterClose
  | ClusterGet
  | ClusterInsert
  | ClusterRemove
  | ClusterUpdate
  | PessimizeNode
  | GetCredentials
deriving DecidableEq, Repr

/-- The block of `Driver` that assigns the slot. -/
def HookName.category : HookName → Category
  | HookName.NetRead => Category.network
  | HookName.NetWrite => Category.network
  | HookName.NetDial => Category.network
  | HookName.NetClose => Category.network
  | HookName.ConnTake => Category.core
  | HookName.ConnUsagesChange => Category.core
  | HookName.ConnStateChange => Category.core
  | HookName.RepeaterWakeUp => Category.core
  | HookName.ConnInvoke => Category.core
  | HookName.ConnNewStream => Category.core
  | HookName.ClusterInit => Category.cluster
  | HookName.ClusterClose => Category.cluster
  | HookName.ClusterGet => Category.cluster
  | HookName.ClusterInsert => Category.cluster
  | HookName.ClusterRemove => Category.cluster
  | HookName.ClusterUpdate => Category.cluster
  | HookName.PessimizeNode => Category.cluster
  | HookName.GetCredentials => Category.credentials

/-- Whether the slot is assigned (not nil) in the table. -/
def TraceDriver.isSet (t : TraceDriver) : HookName → Bool
  | HookName.NetRead => t.OnNetRead.isSome
  | HookName.NetWrite => t.OnNetWrite.isSome
  | HookName.NetDial => t.OnNetDial.isSome
  | HookName.NetClose => t.OnNetClose.isSome
  | HookName.ConnTake => t.OnConnTake.isSome
  | HookName.ConnUsagesChange => t.OnConnUsagesChange.isSome
  | HookName.ConnStateChange => t.OnConnStateChange.isSome
  | HookName.RepeaterWakeUp => t.OnRepeaterWakeUp.isSome
  | HookName.ConnInvoke => t.OnConnInvoke.isSome
  | HookName.ConnNewStream => t.OnConnNewStream.isSome
  | HookName.ClusterInit => t.OnClusterInit.isSome
  | HookName.ClusterClose => t.OnClusterClose.isSome
  | HookName.ClusterGet => t.OnClusterGet.isSome
  | HookName.ClusterInsert => t.OnClusterInsert.isSome
  | HookName.ClusterRemove => t.OnClusterRemove.isSome
  | HookName.ClusterUpdate => t.OnClusterUpdate.isSome
  | HookName.PessimizeNode => t.OnPessimizeNode.isSome
  | HookName.GetCredentials => t.OnGetCredentials.isSome

/-- The lines a paired slot emits when its start hook is called; a nil slot is skipped. -/
def runStart {S D : Type} (h : Option (PairHook S D)) (s : S) (t0 : Time) : List Entry :=
  match h with
  | none => []
  | some f => (f s t0).1

/-- The lines the completion closure of a paired slot emits; a nil slot is skipped. -/
def runDone {S D : Type} (h : Option (PairHook S D)) (s : S) (t0 : Time) (d : D) (t1 : Time) :
    List Entry :=
  match h with
  | none => []
  | some f => (f s t0).2 d t1

/-- One traced operation: the inputs of every call the host makes for it. -/
inductive Event
  | NetRead (s : NetReadStartInfo) (t0 : Time) (d : NetReadDoneInfo) (t1 : Time)
  | NetWrite (s : NetWriteStartInfo) (t0 : Time) (d : NetWriteDoneInfo) (t1 : Time)
  | NetDial (s : NetDialStartInfo) (t0 : Time) (d : NetDialDoneInfo) (t1 : Time)
  | NetClose (s : NetCloseStartInfo) (t0 : Time) (d : NetCloseDoneInfo) (t1 : Time)
  | ConnTake (s : ConnTakeStartInfo) (t0 : Time) (d : ConnTakeDoneInfo) (t1 : Time)
  | ConnUsagesChange (i : ConnUsagesChangeInfo)
  | ConnStateChange (s : ConnStateChangeStartInfo) (t0 : Time) (d : ConnStateChangeDoneInfo) (t1 : Time)
  | RepeaterWakeUp (s : RepeaterTickStartInfo) (t0 : Time) (d : RepeaterTickDoneInfo) (t1 : Time)
  | ConnInvoke (s : ConnInvokeStartInfo) (t0 : Time) (d : ConnInvokeDoneInfo) (t1 : Time)
  | ConnNewStream (s : ConnNewStreamStartInfo) (t0 : Time) (r : ConnNewStreamRecvInfo) (t1 : Time)
      (d : ConnNewStreamDoneInfo) (t2 : Time)
  | ClusterInit (s : ClusterInitStartInfo) (t0 : Time) (d : ClusterInitDoneInfo) (t1 : Time)
  | ClusterClose (s : ClusterCloseStartInfo) (t0 : Time) (d : ClusterCloseDoneInfo) (t1 : Time)
  | ClusterGet (s : ClusterGetStartInfo) (t0 : Time) (d : ClusterGetDoneInfo) (t1 : Time)
  | ClusterInsert (s : ClusterInsertStartInfo) (t0 : Time) (d : ClusterInsertDoneInfo) (t1 : Time)
  | ClusterRemove (s : ClusterRemoveStartInfo) (t0 : Time) (d : ClusterRemoveDoneInfo) (t1 : Time)
  | ClusterUpdate (s : ClusterUpdateStartInfo) (t0 : Time) (d : ClusterUpdateDoneInfo) (t1 : Time)
  | PessimizeNode (s : PessimizeNodeStartInfo) (t0 : Time) (d : PessimizeNodeDoneInfo) (t1 : Time)
  | GetCredentials (s : GetCredentialsStartInfo) (t0 : Time) (d : GetCredentialsDoneInfo) (t1 : Time)

/-- The slot an event goes through. -/
def Event.hook : Event → HookName
  | Event.NetRead _ _ _ _ => HookName.NetRead
  | Event.NetWrite _ _ _ _ => HookName.NetWrite
  | Event.NetDial _ _ _ _ => HookName.NetDial
  | Event.NetClose _ _ _ _ => HookName.NetClose
  | Event.ConnTake _ _ _ _ => HookName.ConnTake
  | Event.ConnUsagesChange _ => HookName.ConnUsagesChange
  | Event.ConnStateChange _ _ _ _ => HookName.ConnStateChange
  | Event.RepeaterWakeUp _ _ _ _ => HookName.RepeaterWakeUp
  | Event.ConnInvoke _ _ _ _ => HookName.ConnInvoke
  | Event.ConnNewStream _ _ _ _ _ _ => HookName.ConnNewStream
  | Event.ClusterInit _ _ _ _ => HookName.ClusterInit
  | Event.ClusterClose _ _ _ _ => HookName.ClusterClose
  | Event.ClusterGet _ _ _ _ => HookName.ClusterGet
  | Event.ClusterInsert _ _ _ _ => HookName.ClusterInsert
  | Event.ClusterRemove _ _ _ _ => HookName.ClusterRemove
  | Event.ClusterUpdate _ _ _ _ => HookName.ClusterUpdate
  | Event.PessimizeNode _ _ _ _ => HookName.PessimizeNode
  | Event.GetCredentials _ _ _ _ => HookName.GetCredentials

/-- The lines emitted by the first call of the event (the start hook; for the conn
usages change the only call). -/
def Event.startLines (t : TraceDriver) : Event → List Entry
  | Event.NetRead s t0 _ _ => runStart t.OnNetRead s t0
  | Event.NetWrite s t0 _ _ => runStart t.OnNetWrite s t0
  | Event.NetDial s t0 _ _ => runStart t.OnNetDial s t0
  | Event.NetClose s t0 _ _ => runStart t.OnNetClose s t0
  | Event.ConnTake s t0 _ _ => runStart t.OnConnTake s t0
  | Event.ConnUsagesChange i =>
    match t.OnConnUsagesChange with
    | none => []
    | some f => f i
  | Event.ConnStateChange s t0 _ _ => runStart t.OnConnStateChange s t0
  | Event.RepeaterWakeUp s t0 _ _ => runStart t.OnRepeaterWakeUp s t0
  | Event.ConnInvoke s t0 _ _ => runStart t.OnConnInvoke s t0
  | Event.ConnNewStream s t0 _ _ _ _ =>
    match t.OnConnNewStream with
    | none => []
    | some f => (f s t0).1
  | Event.ClusterInit s t0 _ _ => runStart t.OnClusterInit s t0
  | Event.ClusterClose s t0 _ _ => runStart t.OnClusterClose s t0
  | Event.ClusterGet s t0 _ _ => runStart t.OnClusterGet s t0
  | Event.ClusterInsert s t0 _ _ => runStart t.OnClusterInsert s t0
  | Event.ClusterRemove s t0 _ _ => runStart t.OnClusterRemove s t0
  | Event.ClusterUpdate s t0 _ _ => runStart t.OnClusterUpdate s t0
  | Event.PessimizeNode s t0 _ _ => runStart t.OnPessimizeNode s t0
  | Event.GetCredentials s t0 _ _ => runStart t.OnGetCredentials s t0

/-- The lines emitted by the intermediate-receive closure of the stream chain; no
other event has an intermediate call. -/
def Event.recvLines (t : TraceDriver) : Event → List Entry
  | Event.ConnNewStream s t0 r t1 _ _ =>
    match t.OnConnNewStream with
    | none => []
    | some f => ((f s t0).2 r t1).1
  | _ => []

/-- The lines emitted by the final completion closure of the event; the conn usages
change returns no closure. -/
def Event.doneLines (t : TraceDriver) : Event → List Entry
  | Event.NetRead s t0 d t1 => runDone t.OnNetRead s t0 d t1
  | Event.NetWrite s t0 d t1 => runDone t.OnNetWrite s t0 d t1
  | Event.NetDial s t0 d t1 => runDone t.OnNetDial s t0 d t1
  | Event.NetClose s t0 d t1 => runDone t.OnNetClose s t0 d t1
  | Event.ConnTake s t0 d t1 => runDone t.OnConnTake s t0 d t1
  | Event.ConnUsagesChange _ => []
  | Event.ConnStateChange s t0 d t1 => runDone t.OnConnStateChange s t0 d t1
  | Event.RepeaterWakeUp s t0 d t1 => runDone t.OnRepeaterWakeUp s t0 d t1
  | Event.ConnInvoke s t0 d t1 => runDone t.OnConnInvoke s t0 d t1
  | Event.ConnNewStream s t0 r t1 d t2 =>
    match t.OnConnNewStream with
    | none => []
    | some f => ((f s t0).2 r t1).2 d t2
  | Event.ClusterInit s t0 d t1 => runDone t.OnClusterInit s t0 d t1
  | Event.ClusterClose s t0 d t1 => runDone t.OnClusterClose s t0 d t1
  | Event.ClusterGet s t0 d t1 => runDone t.OnClusterGet s t0 d t1
  | Event.ClusterInsert s t0 d t1 => runDone t.OnClusterInsert s t0 d t1
  | Event.ClusterRemove s t0 d t1 => runDone t.OnClusterRemove s t0 d t1
  | Event.ClusterUpdate s t0 d t1 => runDone t.OnClusterUpdate s t0 d t1
  | Event.PessimizeNode s t0 d t1 => runDone t.OnPessimizeNode s t0 d t1
  | Event.GetCredentials s t0 d t1 => runDone t.OnGetCredentials s t0 d t1

/-- Every line of the event, in emission order. -/
def Event.lines (t : TraceDriver) (ev : Event) : List Entry :=
  ev.startLines t ++ ev.recvLines t ++ ev.doneLines t

/-- The clock reading captured by the start hook (`start := time.Now()`). -/
def Event.startClock : Event → Option Time
  | Event.NetRead _ t0 _ _ => some t0
  | Event.NetWrite _ t0 _ _ => some t0
  | Event.NetDial _ t0 _ _ => some t0
  | Event.NetClose _ t0 _ _ => some t0
  | Event.ConnTake _ t0 _ _ => some t0
  | Event.ConnUsagesChange _ => none
  | Event.ConnStateChange _ t0 _ _ => some t0
  | Event.RepeaterWakeUp _ t0 _ _ => some t0
  | Event.ConnInvoke _ t0 _ _ => some t0
  | Event.ConnNewStream _ t0 _ _ _ _ => some t0
  | Event.ClusterInit _ t0 _ _ => some t0
  | Event.ClusterClose _ t0 _ _ => some t0
  | Event.ClusterGet _ t0 _ _ => some t0
  | Event.ClusterInsert _ t0 _ _ => some t0
  | Event.ClusterRemove _ t0 _ _ => some t0
  | Event.ClusterUpdate _ t0 _ _ => some t0
  | Event.PessimizeNode _ t0 _ _ => some t0
  | Event.GetCredentials _ t0 _ _ => some t0

/-- The clock reading when the intermediate-receive closure runs. -/
def Event.recvClock : Event → Option Time
  | Event.ConnNewStream _ _ _ t1 _ _ => some t1
  | _ => none

/-- The clock reading when the final completion closure runs. -/
def Event.doneClock : Event → Option Time
  | Event.NetRead _ _ _ t1 => some t1
  | Event.NetWrite _ _ _ t1 => some t1
  | Event.NetDial _ _ _ t1 => some t1
  | Event.NetClose _ _ _ t1 => some t1
  | Event.ConnTake _ _ _ t1 => some t1
  | Event.ConnUsagesChange _ => none
  | Event.ConnStateChange _ _ _ t1 => some t1
  | Event.RepeaterWakeUp _ _ _ t1 => some t1
  | Event.ConnInvoke _ _ _ t1 => some t1
  | Event.ConnNewStream _ _ _ _ _ t2 => some t2
  | Event.ClusterInit _ _ _ t1 => some t1
  | Event.ClusterClose _ _ _ t1 => some t1
  | Event.ClusterGet _ _ _ t1 => some t1
  | Event.ClusterInsert _ _ _ t1 => some t1
  | Event.ClusterRemove _ _ _ t1 => some t1
  | Event.ClusterUpdate _ _ _ t1 => some t1
  | Event.PessimizeNode _ _ _ t1 => some t1
  | Event.GetCredentials _ _ _ t1 => some t1

/-- The error carried by the info of the intermediate-receive call. -/
def Event.recvError : Event → Option GoError
  | Event.ConnNewStream _ _ r _ _ _ => r.Error
  | _ => none

/-- The error carried by the info of the final completion call; `none` when it is nil
and when the completion info has no error at all. -/
def Event.doneError : Event → Option GoError
  | Event.NetRead _ _ d _ => d.Error
  | Event.NetWrite _ _ d _ => d.Error
  | Event.NetDial _ _ d _ => d.Error
  | Event.NetClose _ _ d _ => d.Error
  | Event.ConnTake _ _ d _ => d.Error
  | Event.RepeaterWakeUp _ _ d _ => d.Error
  | Event.ConnInvoke _ _ d _ => d.Error
  | Event.ConnNewStream _ _ _ _ d _ => d.Error
  | Event.ClusterClose _ _ d _ => d.Error
  | Event.ClusterGet _ _ d _ => d.Error
  | Event.GetCredentials _ _ d _ => d.Error
  | _ => none

/-! ## Reading the fields of a line -/

/-- The value of a field if it is a duration field under the key. -/
def Field.durationAt (key : String) : Field → Option Duration
  | Field.duration k d => if k = key then some d else none
  | _ => none

/-- The value of a field if it is a string field under the key. -/
def Field.strAt (key : String) : Field → Option String
  | Field.str k v => if k = key then some v else none
  | _ => none

/-- The value of a field if it is a string field. -/
def Field.strValue : Field → Option String
  | Field.str _ v => some v
  | _ => none

/-- The key and error value of a field if it is an error field. -/
def Field.errAt : Field → Option (String × GoError)
  | Field.err k x => some (k, x)
  | _ => none

/-- The values of the duration fields of a line under a key, in order. -/
def Entry.durations (e : Entry) (key : String) : List Duration :=
  e.fields.filterMap (Field.durationAt key)

/-- The values of the string fields of a line under a key, in order. -/
def Entry.strings (e : Entry) (key : String) : List String :=
  e.fields.filterMap (Field.strAt key)

/-- The values of all string fields of a line, in order. -/
def Entry.stringValues (e : Entry) : List String :=
  e.fields.filterMap Field.strValue

/-- The error fields of a line, as key and error value, in order. -/
def Entry.errors (e : Entry) : List (String × GoError) :=
  e.fields.filterMap Field.errAt

/-- A sample environment: version tag, one bit per category, a masking redaction and
a rendering of connection states. -/
def sampleDeps : Deps where
  version := "0.0.1"
  DriverNetEvents := 1
  DriverCoreEvents := 2
  DriverClusterEvents := 4
  DriverCredentialsEvents := 8
  Secret := fun _ => "****"
  ConnStateString := fun n => if n = 1 then "ACTIVE" else "UNKNOWN"

/-- A sample endpoint. -/
def sampleEndpoint : Endpoint where
  address := "10.0.0.1:2135"
  lastUpdated := 1000
  location := "dc-1"
  localDC := true

/-! ## The slots of the table built by `Driver` -/

/-- The logger a block of `Driver` emits on: `l` renamed `ydb`, `driver` and the
segment of the block. -/
def blockLogger (l : Logger) (segment : String) : Logger :=
  ((l.Named "ydb").Named "driver").Named segment

@[simp]
theorem Driver_OnNetRead (c : Deps) (l : Logger) (details : Details) :
    (Driver c l details).OnNetRead =
      if details &&& c.DriverNetEvents ≠ 0 then some (OnNetRead c (blockLogger l "net")) else none := by
  simp only [Driver, Driver.net, Driver.core, Driver.cluster, Driver.credentials, blockLogger,
    apply_ite TraceDriver.OnNetRead, ite_self]

@[simp]
theorem Driver_OnNetWrite (c : Deps) (l : Logger) (details : Details) :
    (Driver c l details).OnNetWrite =
      if details &&& c.DriverNetEvents ≠ 0 then some (OnNetWrite c (blockLogger l "net")) else none := by
  simp only [Driver, Driver.net, Driver.core, Driver.cluster, Driver.credentials, blockLogger,
    apply_ite TraceDriver.OnNetWrite, ite_self]

@[simp]
theorem Driver_OnNetDial (c : Deps) (l : Logger) (details : Details) :
    (Driver c l details).OnNetDial =
      if details &&& c.DriverNetEvents ≠ 0 then some (OnNetDial c (blockLogger l "net")) else none := by
  simp only [Driver, Driver.net, Driver.core, Driver.cluster, Driver.credentials, blockLogger,
    apply_ite TraceDriver.OnNetDial, ite_self]

@[simp]
theorem Driver_OnNetClose (c : Deps) (l : Logger) (details : Details) :
    (Driver c l details).OnNetClose =
      if details &&& c.DriverNetEvents ≠ 0 then some (OnNetClose c (blockLogger l "net")) else none := by
  simp only [Driver, Driver.net, Driver.core, Driver.cluster, Driver.credentials, blockLogger,
    apply_ite TraceDriver.OnNetClose, ite_self]

@[simp]
theorem Driver_OnConnTake (c : Deps) (l : Logger) (details : Details) :
    (Driver c l details).OnConnTake =
      if details &&& c.DriverCoreEvents ≠ 0 then some (OnConnTake c (blockLogger l "core")) else none := by
  simp only [Driver, Driver.net, Driver.core, Driver.cluster, Driver.credentials, blockLogger,
    apply_ite TraceDriver.OnConnTake, ite_self]

@[simp]
theorem Driver_OnConnUsagesChange (c : Deps) (l : Logger) (details : Details) :
    (Driver c l details).OnConnUsagesChange =
      if details &&& c.DriverCoreEvents ≠ 0 then some (OnConnUsagesChange c (blockLogger l "core")) else none := by
  simp only [Driver, Driver.net, Driver.core, Driver.cluster, Driver.credentials, blockLogger,
    apply_ite TraceDriver.OnConnUsagesChange, ite_self]

@[simp]
theorem Driver_OnConnStateChange (c : Deps) (l : Logger) (details : Details) :
    (Driver c l details).OnConnStateChange =
      if details &&& c.DriverCoreEvents ≠ 0 then some (OnConnStateChange c (blockLogger l "core")) else none := by
  simp only [Driver, Driver.net, Driver.core, Driver.cluster, Driver.credentials, blockLogger,
    apply_ite TraceDriver.OnConnStateChange, ite_self]

@[simp]
theorem Driver_OnRepeaterWakeUp (c : Deps) (l : Logger) (details : Details) :
    (Driver c l details).OnRepeaterWakeUp =
      if details &&& c.DriverCoreEvents ≠ 0 then some (OnRepeaterWakeUp c (blockLogger l "core")) else none := by
  simp only [Driver, Driver.net, Driver.core, Driver.cluster, Driver.credentials, blockLogger,
    apply_ite TraceDriver.OnRepeaterWakeUp, ite_self]

@[simp]
theorem Driver_OnConnInvoke (c : Deps) (l : Logger) (details : Details) :
    (Driver c l details).OnConnInvoke =
      if details &&& c.DriverCoreEvents ≠ 0 then some (OnConnInvoke c (blockLogger l "core")) else none := by
  simp only [Driver, Driver.net, Driver.core, Driver.cluster, Driver.credentials, blockLogger,
    apply_ite TraceDriver.OnConnInvoke, ite_self]

@[simp]
theorem Driver_OnConnNewStream (c : Deps) (l : Logger) (details : Details) :
    (Driver c l details).OnConnNewStream =
      if details &&& c.DriverCoreEvents ≠ 0 then some (OnConnNewStream c (blockLogger l "core")) else none := by
  simp only [Driver, Driver.net, Driver.core, Driver.cluster, Driver.credentials, blockLogger,
    apply_ite TraceDriver.OnConnNewStream, ite_self]

@[simp]
theorem Driver_OnClusterInit (c : Deps) (l : Logger) (details : Details) :
    (Driver c l details).OnClusterInit =
      if details &&& c.DriverClusterEvents ≠ 0 then some (OnClusterInit c (blockLogger l "cluster")) else none := by
  simp only [Driver, Driver.net, Driver.core, Driver.cluster, Driver.credentials, blockLogger,
    apply_ite TraceDriver.OnClusterInit, ite_self]

@[simp]
theorem Driver_OnClusterClose (c : Deps) (l : Logger) (details : Details) :
    (Driver c l details).OnClusterClose =
      if details &&& c.DriverClusterEvents ≠ 0 then some (OnClusterClose c (blockLogger l "cluster")) else none := by
  simp only [Driver, Driver.net, Driver.core, Driver.cluster, Driver.credentials, blockLogger,
    apply_ite TraceDriver.OnClusterClose, ite_self]

@[simp]
theorem Driver_OnClusterGet (c : Deps) (l : Logger) (details : Details) :
    (Driver c l details).OnClusterGet =
      if details &&& c.DriverClusterEvents ≠ 0 then some (OnClusterGet c (blockLogger l "cluster")) else none := by
  simp only [Driver, Driver.net, Driver.core, Driver.cluster, Driver.credentials, blockLogger,
    apply_ite TraceDriver.OnClusterGet, ite_self]

@[simp]
theorem Driver_OnClusterInsert (c : Deps) (l : Logger) (details : Details) :
    (Driver c l details).OnClusterInsert =
      if details &&& c.DriverClusterEvents ≠ 0 then some (OnClusterInsert c (blockLogger l "cluster")) else none := by
  simp only [Driver, Driver.net, Driver.core, Driver.cluster, Driver.credentials, blockLogger,
    apply_ite TraceDriver.OnClusterInsert, ite_self]

@[simp]
theorem Driver_OnClusterRemove (c : Deps) (l : Logger) (details : Details) :
    (Driver c l details).OnClusterRemove =
      if details &&& c.DriverClusterEvents ≠ 0 then some (OnClusterRemove c (blockLogger l "cluster")) else none := by
  simp only [Driver, Driver.net, Driver.core, Driver.cluster, Driver.credentials, blockLogger,
    apply_ite TraceDriver.OnClusterRemove, ite_self]

@[simp]
theorem Driver_OnClusterUpdate (c : Deps) (l : Logger) (details : Details) :
    (Driver c l details).OnClusterUpdate =
      if details &&& c.DriverClusterEvents ≠ 0 then some (OnClusterUpdate c (blockLogger l "cluster")) else none := by
  simp only [Driver, Driver.net, Driver.core, Driver.cluster, Driver.credentials, blockLogger,
    apply_ite TraceDriver.OnClusterUpdate, ite_self]

@[simp]
theorem Driver_OnPessimizeNode (c : Deps) (l : Logger) (details : Details) :
    (Driver c l details).OnPessimizeNode =
      if details &&& c.DriverClusterEvents ≠ 0 then some (OnPessimizeNode c (blockLogger l "cluster")) else none := by
  simp only [Driver, Driver.net, Driver.core, Driver.cluster, Driver.credentials, blockLogger,
    apply_ite TraceDriver.OnPessimizeNode, ite_self]

@[simp]
theorem Driver_OnGetCredentials (c : Deps) (l : Logger) (details : Details) :
    (Driver c l details).OnGetCredentials =
      if details &&& c.DriverCredentialsEvents ≠ 0 then some (OnGetCredentials c (blockLogger l "credentials")) else none := by
  simp only [Driver, Driver.net, Driver.core, Driver.cluster, Driver.credentials, blockLogger,
    apply_ite TraceDriver.OnGetCredentials, ite_self]

/-! ## Reading the fields the constructors build -/

@[simp]
theorem durationAt_zapString (key : String) (k v : String) :
    Field.durationAt key (zapString k v) = none := rfl

@[simp]
theorem strAt_zapString (key : String) (k v : String) :
    Field.strAt key (zapString k v) = if k = key then some v else none := rfl

@[simp]
theorem strValue_zapString (k v : String) :
    Field.strValue (zapString k v) = some v := rfl

@[simp]
theorem errAt_zapString (k v : String) :
    Field.errAt (zapString k v) = none := rfl

@[simp]
theorem durationAt_zapDuration (key : String) (k : String) (d : Duration) :
    Field.durationAt key (zapDuration k d) = if k = key then some d else none := rfl

@[simp]
theorem strAt_zapDuration (key : String) (k : String) (d : Duration) :
    Field.strAt key (zapDuration k d) = none := rfl

@[simp]
theorem strValue_zapDuration (k : String) (d : Duration) :
    Field.strValue (zapDuration k d) = none := rfl

@[simp]
theorem errAt_zapDuration (k : String) (d : Duration) :
    Field.errAt (zapDuration k d) = none := rfl

@[simp]
theorem durationAt_zapTime (key : String) (k : String) (t : Time) :
    Field.durationAt key (zapTime k t) = none := rfl

@[simp]
theorem strAt_zapTime (key : String) (k : String) (t : Time) :
    Field.strAt key (zapTime k t) = none := rfl

@[simp]
theorem strValue_zapTime (k : String) (t : Time) :
    Field.strValue (zapTime k t) = none := rfl

@[simp]
theorem errAt_zapTime (k : String) (t : Time) :
    Field.errAt (zapTime k t) = none := rfl

@[simp]
theorem durationAt_zapInt (key : String) (k : String) (n : Int) :
    Field.durationAt key (zapInt k n) = none := rfl

@[simp]
theorem strAt_zapInt (key : String) (k : String) (n : Int) :
    Field.strAt key (zapInt k n) = none := rfl

@[simp]
theorem strValue_zapInt (k : String) (n : Int) :
    Field.strValue (zapInt k n) = none := rfl

@[simp]
theorem errAt_zapInt (k : String) (n : Int) :
    Field.errAt (zapInt k n) = none := rfl

@[simp]
theorem durationAt_zapBool (key : String) (k : String) (b : Bool) :
    Field.durationAt key (zapBool k b) = none := rfl

@[simp]
theorem strAt_zapBool (key : String) (k : String) (b : Bool) :
    Field.strAt key (zapBool k b) = none := rfl

@[simp]
theorem strValue_zapBool (k : String) (b : Bool) :
    Field.strValue (zapBool k b) = none := rfl

@[simp]
theorem errAt_zapBool (k : String) (b : Bool) :
    Field.errAt (zapBool k b) = none := rfl

@[simp]
theorem durationAt_zapNamedError (key k : String) (e : Option GoError) :
    Field.durationAt key (zapNamedError k e) = none := by
  cases e <;> rfl

@[simp]
theorem strAt_zapNamedError (key k : String) (e : Option GoError) :
    Field.strAt key (zapNamedError k e) = none := by
  cases e <;> rfl

@[simp]
theorem strValue_zapNamedError (k : String) (e : Option GoError) :
    Field.strValue (zapNamedError k e) = none := by
  cases e <;> rfl

@[simp]
theorem errAt_zapNamedError (k : String) (e : Option GoError) :
    Field.errAt (zapNamedError k e) = e.map fun x => (k, x) := by
  cases e <;> rfl

/-- For clock readings the runtime can produce `time.Since` is the plain difference:
it does not saturate. -/
theorem timeSince_eq (t0 t1 : Int) (h0 : validClock t0) (h1 : validClock t1) :
    timeSince t0 t1 = t1 - t0 := by
  have e : (2 : Int) ^ 63 = 9223372036854775808 := by norm_num
  obtain ⟨a0, b0⟩ := h0
  obtain ⟨a1, b1⟩ := h1
  have a0' : (0 : Int) ≤ t0 := a0
  have a1' : (0 : Int) ≤ t1 := a1
  have b0' : t0 < (9223372036854775808 : Int) := e ▸ b0
  have b1' : t1 < (9223372036854775808 : Int) := e ▸ b1
  have lo : ¬ (t1 - t0 < -((2 : Int) ^ 63)) := by rw [e]; omega
  have hi : ¬ ((2 : Int) ^ 63 - 1 < t1 - t0) := by rw [e]; omega
  unfold timeSince minDuration maxDuration
  simp only
  rw [if_neg lo, if_neg hi]

/-- The completion line of a failed operation, for every slot whose completion info
carries an error: one line, at error level for get-credentials, at info level for the
repeater wake-up and at warn level for every other slot, with the error value attached
unchanged under the key `error`; the intermediate-receive line of the stream chain is
at warn level. -/
theorem failure_lines (c : Deps) (l : Logger) (details : Details) (ev : Event)
    (hset : (Driver c l details).isSet ev.hook = true) (e : GoError) :
    (ev.doneError = some e →
      ∃ line, ev.doneLines (Driver c l details) = [line] ∧
        line.level =
          (if ev.hook = HookName.GetCredentials then Level.error
           else if ev.hook = HookName.RepeaterWakeUp then Level.info
           else Level.warn) ∧
        line.errors = [("error", e)]) ∧
    (ev.recvError = some e →
      ∃ line, ev.recvLines (Driver c l details) = [line] ∧ line.level = Level.warn ∧
        line.errors = [("error", e)]) := by
  cases ev <;> simp [TraceDriver.isSet, Event.hook] at hset <;>
    simp [Event.recvLines, Event.doneLines, runStart, runDone, Event.hook, Event.doneError,
      Event.recvError, hset, OnNetRead, OnNetWrite, OnNetDial, OnNetClose, OnConnTake, OnConnUsagesChange,
      OnConnStateChange, OnRepeaterWakeUp, OnConnInvoke, OnConnNewStream, OnClusterInit,
      OnClusterClose, OnClusterGet, OnClusterInsert, OnClusterRemove, OnClusterUpdate,
      OnPessimizeNode, OnGetCredentials, Logger.Debug, Logger.Info, Logger.Warn, Logger.Error] <;>
    (try constructor) <;> intro h <;>
    simp [h, Entry.errors, zapError]

/-! ## The claims -/

/-- Claim C1: for every details bitmask and every slot of the table, the slot is unset
when the mask of its category does not meet the bitmask and set when it does; with the
category disabled an event of that category emits no line; and `Driver(l, 0)` is the
empty table. -/
theorem C1_category_gate (c : Deps) (l : Logger) (details : Details) :
    (∀ h : HookName,
      (details &&& h.category.mask c = 0 → (Driver c l details).isSet h = false) ∧
      (details &&& h.category.mask c ≠ 0 → (Driver c l details).isSet h = true)) ∧
    (∀ ev : Event, details &&& ev.hook.category.mask c = 0 →
      ev.lines (Driver c l details) = []) ∧
    Driver c l 0 = {} := by
  refine ⟨?_, ?_, ?_⟩
  · intro h
    cases h <;> simp [TraceDriver.isSet, HookName.category, Category.mask]
  · intro ev hz
    cases ev <;>
      simp [Event.hook, HookName.category, Category.mask] at hz <;>
      simp [Event.lines, Event.startLines, Event.recvLines, Event.doneLines, runStart,
        runDone, hz]
  · simp [Driver, Driver.net, Driver.core, Driver.cluster, Driver.credentials]

/-- Witness of C1: with details = 6 (core and cluster) the net-read slot is unset, the
conn-take slot is set and a net-read event emits nothing. -/
theorem C1_category_gate_witness :
    (Driver sampleDeps ⟨"app"⟩ 6).isSet HookName.NetRead = false ∧
    (Driver sampleDeps ⟨"app"⟩ 6).isSet HookName.ConnTake = true ∧
    Event.lines (Driver sampleDeps ⟨"app"⟩ 6)
      (Event.NetRead ⟨"10.0.0.1:2135"⟩ 10 ⟨128, none⟩ 25) = [] :=
  ⟨((C1_category_gate sampleDeps ⟨"app"⟩ 6).1 HookName.NetRead).1 (by decide),
   ((C1_category_gate sampleDeps ⟨"app"⟩ 6).1 HookName.ConnTake).2 (by decide),
   (C1_category_gate sampleDeps ⟨"app"⟩ 6).2.1 _ (by decide)⟩

/-- Claim C2, evaluated where the code departs from it: with the core category
enabled, the repeater wake-up completion closure called with the non-nil error `boom`
emits its single line at info level, not at warn level; the error is attached. -/
theorem C2_repeater_failure_emits_info :
    Event.doneError (Event.RepeaterWakeUp ⟨"discovery", "tick"⟩ 10 ⟨some ⟨"boom"⟩⟩ 25) =
      some ⟨"boom"⟩ ∧
    Event.doneLines (Driver sampleDeps ⟨"app"⟩ 2)
        (Event.RepeaterWakeUp ⟨"discovery", "tick"⟩ 10 ⟨some ⟨"boom"⟩⟩ 25) =
      [⟨"app.ydb.driver.core", Level.info, "repeater wake up fail",
        [Field.str "version" "0.0.1", Field.duration "latency" 15,
         Field.str "name" "discovery", Field.str "event" "tick",
         Field.err "error" ⟨"boom"⟩]⟩] := by
  decide

/-- Counterexample to C3: the pessimize-node completion info has no error, and its
completion line is at warn level. -/
theorem C3_pessimize_completion_is_warn :
    Event.doneError (Event.PessimizeNode ⟨sampleEndpoint, none⟩ 10 ⟨⟨1⟩⟩ 25) = none ∧
    (Event.doneLines (Driver sampleDeps ⟨"app"⟩ 4)
        (Event.PessimizeNode ⟨sampleEndpoint, none⟩ 10 ⟨⟨1⟩⟩ 25)).map Entry.level =
      [Level.warn] := by
  decide

/-- Claim C3, amended: for every installed slot with a completion closure, when the
error of the completion is absent the closure emits one line, at debug or info level,
except for pessimize-node, whose completion line is at warn level; the
intermediate-receive closure of the stream chain emits one debug line when its error
is absent. -/
theorem C3_success_levels (c : Deps) (l : Logger) (details : Details) (ev : Event)
    (hset : (Driver c l details).isSet ev.hook = true) :
    (ev.hook ≠ HookName.ConnUsagesChange → ev.doneError = none →
      ∃ line, ev.doneLines (Driver c l details) = [line] ∧
        (if ev.hook = HookName.PessimizeNode then line.level = Level.warn
         else (line.level = Level.debug ∨ line.level = Level.info))) ∧
    (ev.hook = HookName.ConnNewStream → ev.recvError = none →
      ∃ line, ev.recvLines (Driver c l details) = [line] ∧ line.level = Level.debug) := by
  cases ev <;> simp [TraceDriver.isSet, Event.hook] at hset <;>
    simp [Event.recvLines, Event.doneLines, runStart, runDone, Event.hook, Event.doneError,
      Event.recvError, hset, OnNetRead, OnNetWrite, OnNetDial, OnNetClose, OnConnTake, OnConnUsagesChange,
      OnConnStateChange, OnRepeaterWakeUp, OnConnInvoke, OnConnNewStream, OnClusterInit,
      OnClusterClose, OnClusterGet, OnClusterInsert, OnClusterRemove, OnClusterUpdate,
      OnPessimizeNode, OnGetCredentials, Logger.Debug, Logger.Info, Logger.Warn, Logger.Error] <;>
    (try constructor) <;> intro h <;> simp [h]

/-- Witness of C3 amended: a cluster insert completes with an info line. -/
theorem C3_success_levels_witness :
    ∃ line, Event.doneLines (Driver sampleDeps ⟨"app"⟩ 4)
        (Event.ClusterInsert ⟨sampleEndpoint⟩ 10 ⟨⟨1⟩⟩ 25) = [line] ∧
      (if Event.hook (Event.ClusterInsert ⟨sampleEndpoint⟩ 10 ⟨⟨1⟩⟩ 25) =
          HookName.PessimizeNode then line.level = Level.warn
       else (line.level = Level.debug ∨ line.level = Level.info)) :=
  (C3_success_levels sampleDeps ⟨"app"⟩ 4 (Event.ClusterInsert ⟨sampleEndpoint⟩ 10 ⟨⟨1⟩⟩ 25)
    (by decide)).1 (by decide) (by decide)

/-- Counterexample to C4: the start line of cluster-init is at debug level, not info,
and the start line of pessimize-node is at warn level. -/
theorem C4_cluster_init_and_pessimize_start :
    (Event.startLines (Driver sampleDeps ⟨"app"⟩ 4)
        (Event.ClusterInit ⟨⟩ 10 ⟨⟩ 25)).map Entry.level = [Level.debug] ∧
    (Event.startLines (Driver sampleDeps ⟨"app"⟩ 4)
        (Event.PessimizeNode ⟨sampleEndpoint, none⟩ 10 ⟨⟨1⟩⟩ 25)).map Entry.level =
      [Level.warn] := by
  decide

/-- Claim C4, amended: every installed start hook emits one line, at info level for the
repeater wake-up, at warn level for pessimize-node and at debug level for every other
slot, cluster-init included. -/
theorem C4_start_levels (c : Deps) (l : Logger) (details : Details) (ev : Event)
    (hset : (Driver c l details).isSet ev.hook = true) :
    (ev.startLines (Driver c l details)).map Entry.level =
      [if ev.hook = HookName.RepeaterWakeUp then Level.info
       else if ev.hook = HookName.PessimizeNode then Level.warn
       else Level.debug] := by
  cases ev <;> simp [TraceDriver.isSet, Event.hook] at hset <;>
    simp [Event.startLines, runStart, Event.hook, hset, OnNetRead, OnNetWrite, OnNetDial, OnNetClose, OnConnTake, OnConnUsagesChange,
      OnConnStateChange, OnRepeaterWakeUp, OnConnInvoke, OnConnNewStream, OnClusterInit,
      OnClusterClose, OnClusterGet, OnClusterInsert, OnClusterRemove, OnClusterUpdate,
      OnPessimizeNode, OnGetCredentials, Logger.Debug, Logger.Info, Logger.Warn, Logger.Error]

/-- Witness of C4 amended: the repeater wake-up start line is at info level. -/
theorem C4_start_levels_witness :
    (Event.startLines (Driver sampleDeps ⟨"app"⟩ 2)
        (Event.RepeaterWakeUp ⟨"discovery", "tick"⟩ 10 ⟨none⟩ 25)).map Entry.level =
      [Level.info] :=
  C4_start_levels sampleDeps ⟨"app"⟩ 2 (Event.RepeaterWakeUp ⟨"discovery", "tick"⟩ 10 ⟨none⟩ 25)
    (by decide)

/-- Counterexample to C5: for the empty token the redacted token field contains the
token as a substring; and for a token equal to the version tag the raw token is a field
value of the completion line (the version field). -/
theorem C5_empty_token_and_version_token :
    (∃ v, (Event.doneLines (Driver sampleDeps ⟨"app"⟩ 8)
          (Event.GetCredentials ⟨⟩ 10 ⟨"", none⟩ 25)).map (fun e => e.strings "token") = [[v]] ∧
        ("" : String).data <:+: v.data) ∧
    (∃ line ∈ Event.doneLines (Driver sampleDeps ⟨"app"⟩ 8)
          (Event.GetCredentials ⟨⟩ 10 ⟨"0.0.1", none⟩ 25),
        "0.0.1" ∈ line.stringValues) := by
  refine ⟨⟨"****", by decide, by decide⟩, ?_⟩
  decide

/-- Claim C5, amended: the token reaches the log only through the redaction.  On
success the completion line has exactly one token field, holding `log.Secret(token)`,
its string field values are exactly the version tag and `log.Secret(token)`, and two
tokens with the same redaction give the same line; on failure the line has no token
field, its only string field value is the version tag and it is the same for any two
tokens; the start line carries only the version tag. -/
theorem C5_token_only_through_redaction (c : Deps) (l : Logger) (details : Details)
    (hset : (Driver c l details).isSet HookName.GetCredentials = true)
    (s : GetCredentialsStartInfo) (t0 t1 : Time) (token : String) :
    (∃ line, Event.doneLines (Driver c l details)
          (Event.GetCredentials s t0 ⟨token, none⟩ t1) = [line] ∧
        line.strings "token" = [c.Secret token] ∧
        line.stringValues = [c.version, c.Secret token] ∧
        line.errors = []) ∧
    (∀ token' : String, c.Secret token' = c.Secret token →
        Event.doneLines (Driver c l details) (Event.GetCredentials s t0 ⟨token', none⟩ t1) =
        Event.doneLines (Driver c l details) (Event.GetCredentials s t0 ⟨token, none⟩ t1)) ∧
    (∀ (e : GoError) (token' : String),
      ∃ line, Event.doneLines (Driver c l details)
          (Event.GetCredentials s t0 ⟨token, some e⟩ t1) = [line] ∧
        line.strings "token" = [] ∧
        line.stringValues = [c.version] ∧
        Event.doneLines (Driver c l details)
          (Event.GetCredentials s t0 ⟨token', some e⟩ t1) = [line]) ∧
    (Event.startLines (Driver c l details)
        (Event.GetCredentials s t0 ⟨token, none⟩ t1)).map Entry.stringValues =
      [[c.version]] := by
  simp [TraceDriver.isSet] at hset
  refine ⟨?_, ?_, ?_, ?_⟩
  · simp [Event.doneLines, runDone, hset, OnGetCredentials, Logger.Debug, Entry.strings,
      Entry.stringValues, Entry.errors]
  · intro token' h
    simp [Event.doneLines, runDone, hset, OnGetCredentials, Logger.Debug, h]
  · intro e token'
    simp [Event.doneLines, runDone, hset, OnGetCredentials, Logger.Error, Entry.strings,
      Entry.stringValues, zapError]
  · simp [Event.startLines, runStart, hset, OnGetCredentials, Logger.Debug,
      Entry.stringValues]

/-- Witness of C5 amended: the token `secret123` is logged as its redaction. -/
theorem C5_token_only_through_redaction_witness :
    ∃ line, Event.doneLines (Driver sampleDeps ⟨"app"⟩ 8)
          (Event.GetCredentials ⟨⟩ 10 ⟨"secret123", none⟩ 25) = [line] ∧
        line.strings "token" = [sampleDeps.Secret "secret123"] ∧
        line.stringValues = [sampleDeps.version, sampleDeps.Secret "secret123"] ∧
        line.errors = [] :=
  (C5_token_only_through_redaction sampleDeps ⟨"app"⟩ 8 (by decide) ⟨⟩ 10 25 "secret123").1

/-- Counterexample to C6: a conn-usages-change event emits one line in all and has no
completion line; a stream event emits three lines. -/
theorem C6_usages_change_and_stream :
    (Event.lines (Driver sampleDeps ⟨"app"⟩ 2)
        (Event.ConnUsagesChange ⟨sampleEndpoint, 3⟩)).length = 1 ∧
    Event.doneLines (Driver sampleDeps ⟨"app"⟩ 2)
        (Event.ConnUsagesChange ⟨sampleEndpoint, 3⟩) = [] ∧
    (Event.lines (Driver sampleDeps ⟨"app"⟩ 2)
        (Event.ConnNewStream ⟨sampleEndpoint, "/Ydb.Table/Read"⟩ 10 ⟨none⟩ 20 ⟨none⟩
          30)).length = 3 := by
  decide

/-- Claim C6, amended: for every installed slot the first call emits exactly one line;
the completion closure emits exactly one line whatever the outcome, for every slot
except conn-usages-change, which returns no closure; and the stream chain emits exactly
one more line, from its intermediate-receive closure. -/
theorem C6_line_counts (c : Deps) (l : Logger) (details : Details) (ev : Event)
    (hset : (Driver c l details).isSet ev.hook = true) :
    (ev.startLines (Driver c l details)).length = 1 ∧
    (ev.recvLines (Driver c l details)).length =
      (if ev.hook = HookName.ConnNewStream then 1 else 0) ∧
    (ev.doneLines (Driver c l details)).length =
      (if ev.hook = HookName.ConnUsagesChange then 0 else 1) := by
  cases ev <;> simp [TraceDriver.isSet, Event.hook] at hset <;>
    simp [Event.startLines, Event.recvLines, Event.doneLines, runStart, runDone, Event.hook,
      hset, OnNetRead, OnNetWrite, OnNetDial, OnNetClose, OnConnTake, OnConnUsagesChange,
      OnConnStateChange, OnRepeaterWakeUp, OnConnInvoke, OnConnNewStream, OnClusterInit,
      OnClusterClose, OnClusterGet, OnClusterInsert, OnClusterRemove, OnClusterUpdate,
      OnPessimizeNode, OnGetCredentials, Logger.Debug, Logger.Info, Logger.Warn, Logger.Error] <;>
    (try split_ifs) <;> simp

/-- Witness of C6 amended: a failed net read emits one start line and one completion
line. -/
theorem C6_line_counts_witness :
    (Event.startLines (Driver sampleDeps ⟨"app"⟩ 1)
        (Event.NetRead ⟨"10.0.0.1:2135"⟩ 10 ⟨0, some ⟨"eof"⟩⟩ 25)).length = 1 ∧
    (Event.doneLines (Driver sampleDeps ⟨"app"⟩ 1)
        (Event.NetRead ⟨"10.0.0.1:2135"⟩ 10 ⟨0, some ⟨"eof"⟩⟩ 25)).length = 1 :=
  ⟨(C6_line_counts sampleDeps ⟨"app"⟩ 1
      (Event.NetRead ⟨"10.0.0.1:2135"⟩ 10 ⟨0, some ⟨"eof"⟩⟩ 25) (by decide)).1,
   (C6_line_counts sampleDeps ⟨"app"⟩ 1
      (Event.NetRead ⟨"10.0.0.1:2135"⟩ 10 ⟨0, some ⟨"eof"⟩⟩ 25) (by decide)).2.2⟩

/-- Claim C7: for every installed slot and clock readings the runtime can produce, the
completion line has exactly one latency field, equal to the reading when the
completion closure runs minus the reading captured by the start hook, whatever the
outcome; in the stream chain the intermediate-receive line and the final line both
measure from the reading captured at stream start. -/
theorem C7_latency (c : Deps) (l : Logger) (details : Details) (ev : Event)
    (hset : (Driver c l details).isSet ev.hook = true)
    (t0 : Time) (hstart : ev.startClock = some t0) (h0 : validClock t0) :
    (∀ t1 : Time, ev.doneClock = some t1 → validClock t1 →
      (ev.doneLines (Driver c l details)).map (fun e => e.durations "latency") =
        [[t1 - t0]]) ∧
    (∀ t1 : Time, ev.recvClock = some t1 → validClock t1 →
      (ev.recvLines (Driver c l details)).map (fun e => e.durations "latency") =
        [[t1 - t0]]) := by
  cases ev <;> simp [TraceDriver.isSet, Event.hook] at hset <;>
    simp [Event.startClock] at hstart <;> subst hstart <;>
    refine ⟨?_, ?_⟩ <;> intro t1 ht1 h1 <;>
    simp [Event.doneClock, Event.recvClock] at ht1 <;> subst ht1 <;>
    simp [Event.recvLines, Event.doneLines, runStart, runDone, Event.hook,
      hset, OnNetRead, OnNetWrite, OnNetDial, OnNetClose, OnConnTake, OnConnUsagesChange,
      OnConnStateChange, OnRepeaterWakeUp, OnConnInvoke, OnConnNewStream, OnClusterInit,
      OnClusterClose, OnClusterGet, OnClusterInsert, OnClusterRemove, OnClusterUpdate,
      OnPessimizeNode, OnGetCredentials, Logger.Debug, Logger.Info, Logger.Warn, Logger.Error, timeSince_eq _ _ h0 h1, Entry.durations, zapError] <;>
    (try split_ifs) <;>
    simp [Entry.durations, zapError]

/-- Witness of C7: a stream started at 10, with a failed intermediate receive at 20 and
a final completion at 30, logs the latencies 10 and 20. -/
theorem C7_latency_witness :
    (Event.doneLines (Driver sampleDeps ⟨"app"⟩ 2)
        (Event.ConnNewStream ⟨sampleEndpoint, "/Ydb.Table/Read"⟩ 10 ⟨some ⟨"eof"⟩⟩ 20 ⟨none⟩
          30)).map (fun e => e.durations "latency") = [[30 - 10]] ∧
    (Event.recvLines (Driver sampleDeps ⟨"app"⟩ 2)
        (Event.ConnNewStream ⟨sampleEndpoint, "/Ydb.Table/Read"⟩ 10 ⟨some ⟨"eof"⟩⟩ 20 ⟨none⟩
          30)).map (fun e => e.durations "latency") = [[20 - 10]] :=
  ⟨(C7_latency sampleDeps ⟨"app"⟩ 2
      (Event.ConnNewStream ⟨sampleEndpoint, "/Ydb.Table/Read"⟩ 10 ⟨some ⟨"eof"⟩⟩ 20 ⟨none⟩ 30)
      (by decide) 10 rfl (by decide)).1 30 rfl (by decide),
   (C7_latency sampleDeps ⟨"app"⟩ 2
      (Event.ConnNewStream ⟨sampleEndpoint, "/Ydb.Table/Read"⟩ 10 ⟨some ⟨"eof"⟩⟩ 20 ⟨none⟩ 30)
      (by decide) 10 rfl (by decide)).2 20 rfl (by decide)⟩

/-- Counterexample to C8: the start line of a conn state change carries the field
`state before`; its completion line carries no field under that key. -/
theorem C8_state_before_dropped :
    ∃ s d, Event.startLines (Driver sampleDeps ⟨"app"⟩ 2)
        (Event.ConnStateChange ⟨sampleEndpoint, ⟨1⟩⟩ 10 ⟨⟨2⟩⟩ 25) = [s] ∧
      Event.doneLines (Driver sampleDeps ⟨"app"⟩ 2)
        (Event.ConnStateChange ⟨sampleEndpoint, ⟨1⟩⟩ 10 ⟨⟨2⟩⟩ 25) = [d] ∧
      Field.str "state before" "ACTIVE" ∈ s.fields ∧
      Field.str "state before" "ACTIVE" ∉ d.fields ∧
      d.strings "state before" = [] :=
  ⟨_, _, rfl, rfl, by decide, by decide, by decide⟩

/-- Claim C8, amended: for every installed paired slot, every field of the start line
is on the completion line with the same key and value, whatever the outcome, except
the `state before` field of conn state change and the `cause` field of pessimize-node,
which are on the start line only; the completion line also carries a latency field;
and in the stream chain every field of the start line is on the intermediate-receive
line too. -/
theorem C8_start_fields_carried (c : Deps) (l : Logger) (details : Details) (ev : Event)
    (hset : (Driver c l details).isSet ev.hook = true)
    (hpair : ev.hook ≠ HookName.ConnUsagesChange) :
    ∃ s d, ev.startLines (Driver c l details) = [s] ∧
      ev.doneLines (Driver c l details) = [d] ∧
      (∀ f ∈ s.fields, f ∈ d.fields ∨
        (ev.hook = HookName.ConnStateChange ∧ ∃ v, f = Field.str "state before" v) ∨
        (ev.hook = HookName.PessimizeNode ∧ ∃ cause, f = zapNamedError "cause" cause)) ∧
      (∃ latency, Field.duration "latency" latency ∈ d.fields) ∧
      (∀ r ∈ ev.recvLines (Driver c l details), ∀ f ∈ s.fields, f ∈ r.fields) := by
  cases ev <;> simp [TraceDriver.isSet, Event.hook] at hset hpair <;>
    simp [Event.startLines, Event.recvLines, Event.doneLines, runStart, runDone, Event.hook,
      hset, OnNetRead, OnNetWrite, OnNetDial, OnNetClose, OnConnTake, OnConnUsagesChange,
      OnConnStateChange, OnRepeaterWakeUp, OnConnInvoke, OnConnNewStream, OnClusterInit,
      OnClusterClose, OnClusterGet, OnClusterInsert, OnClusterRemove, OnClusterUpdate,
      OnPessimizeNode, OnGetCredentials, Logger.Debug, Logger.Info, Logger.Warn, Logger.Error] <;>
    (try split_ifs) <;>
    simp [zapString, zapDuration, zapTime, zapInt, zapBool]

/-- Witness of C8 amended, the net-read scenario: started with address 10.0.0.1:2135
and completed 5 ms later with error nil and received 128, the start line is a debug
line with the address and the completion line is a debug line with the address,
received 128 and the latency of 5 ms. -/
theorem C8_start_fields_carried_witness :
    Event.startLines (Driver sampleDeps ⟨"app"⟩ 1)
        (Event.NetRead ⟨"10.0.0.1:2135"⟩ 1000000 ⟨128, none⟩ 6000000) =
      [⟨"app.ydb.driver.net", Level.debug, "try to read",
        [Field.str "version" "0.0.1", Field.str "address" "10.0.0.1:2135"]⟩] ∧
    Event.doneLines (Driver sampleDeps ⟨"app"⟩ 1)
        (Event.NetRead ⟨"10.0.0.1:2135"⟩ 1000000 ⟨128, none⟩ 6000000) =
      [⟨"app.ydb.driver.net", Level.debug, "read",
        [Field.str "version" "0.0.1", Field.duration "latency" 5000000,
         Field.str "address" "10.0.0.1:2135", Field.int "received" 128]⟩] ∧
    (∃ s d, Event.startLines (Driver sampleDeps ⟨"app"⟩ 1)
          (Event.NetRead ⟨"10.0.0.1:2135"⟩ 1000000 ⟨128, none⟩ 6000000) = [s] ∧
        Event.doneLines (Driver sampleDeps ⟨"app"⟩ 1)
          (Event.NetRead ⟨"10.0.0.1:2135"⟩ 1000000 ⟨128, none⟩ 6000000) = [d] ∧
        (∀ f ∈ s.fields, f ∈ d.fields ∨
          (Event.hook (Event.NetRead ⟨"10.0.0.1:2135"⟩ 1000000 ⟨128, none⟩ 6000000) =
              HookName.ConnStateChange ∧ ∃ v, f = Field.str "state before" v) ∨
          (Event.hook (Event.NetRead ⟨"10.0.0.1:2135"⟩ 1000000 ⟨128, none⟩ 6000000) =
              HookName.PessimizeNode ∧ ∃ cause, f = zapNamedError "cause" cause)) ∧
        (∃ latency, Field.duration "latency" latency ∈ d.fields) ∧
        (∀ r ∈ Event.recvLines (Driver sampleDeps ⟨"app"⟩ 1)
            (Event.NetRead ⟨"10.0.0.1:2135"⟩ 1000000 ⟨128, none⟩ 6000000),
          ∀ f ∈ s.fields, f ∈ r.fields)) :=
  ⟨by decide, by decide,
   C8_start_fields_carried sampleDeps ⟨"app"⟩ 1
     (Event.NetRead ⟨"10.0.0.1:2135"⟩ 1000000 ⟨128, none⟩ 6000000) (by decide) (by decide)⟩

/-- Claim C9: with the cluster category enabled, for every endpoint and every resulting
state, the completion closure of cluster insert, cluster remove and cluster update
emits one line, at info level, whose `state` field is the rendered state. -/
theorem C9_cluster_mutation_info (c : Deps) (l : Logger) (details : Details)
    (hbit : details &&& c.DriverClusterEvents ≠ 0) (t0 t1 : Time) :
    (∀ (s : ClusterInsertStartInfo) (d : ClusterInsertDoneInfo),
      ∃ line, Event.doneLines (Driver c l details) (Event.ClusterInsert s t0 d t1) = [line] ∧
        line.level = Level.info ∧ line.strings "state" = [d.State.String c]) ∧
    (∀ (s : ClusterRemoveStartInfo) (d : ClusterRemoveDoneInfo),
      ∃ line, Event.doneLines (Driver c l details) (Event.ClusterRemove s t0 d t1) = [line] ∧
        line.level = Level.info ∧ line.strings "state" = [d.State.String c]) ∧
    (∀ (s : ClusterUpdateStartInfo) (d : ClusterUpdateDoneInfo),
      ∃ line, Event.doneLines (Driver c l details) (Event.ClusterUpdate s t0 d t1) = [line] ∧
        line.level = Level.info ∧ line.strings "state" = [d.State.String c]) := by
  refine ⟨?_, ?_, ?_⟩ <;> intro s d <;>
    simp [Event.doneLines, runDone, hbit, OnClusterInsert, OnClusterRemove, OnClusterUpdate,
      Logger.Info, Entry.strings]

/-- Witness of C9: a cluster insert completing with the state rendered ACTIVE yields an
info line with that state. -/
theorem C9_cluster_mutation_info_witness :
    ∃ line, Event.doneLines (Driver sampleDeps ⟨"app"⟩ 4)
        (Event.ClusterInsert ⟨sampleEndpoint⟩ 10 ⟨⟨1⟩⟩ 25) = [line] ∧
      line.level = Level.info ∧
      line.strings "state" = [ConnState.String sampleDeps ⟨1⟩] :=
  (C9_cluster_mutation_info sampleDeps ⟨"app"⟩ 4 (by decide) 10 25).1 ⟨sampleEndpoint⟩ ⟨⟨1⟩⟩

/-- Claim C10: for every details bitmask, the get-credentials completion closure of the
table, called with a non-nil error, emits one line, at error level; and no other line
of any event of any category is at error level: a line at error level is the
completion line of a get-credentials event whose error is present. -/
theorem C10_only_credentials_failure_is_error (c : Deps) (l : Logger) (details : Details) :
    (∀ h : PairHook GetCredentialsStartInfo GetCredentialsDoneInfo,
      (Driver c l details).OnGetCredentials = some h →
      ∀ (s : GetCredentialsStartInfo) (t0 : Time) (d : GetCredentialsDoneInfo) (t1 : Time),
        d.Error ≠ none → ∃ line, (h s t0).2 d t1 = [line] ∧ line.level = Level.error) ∧
    (∀ (ev : Event) (line : Entry), line ∈ ev.lines (Driver c l details) →
      line.level = Level.error →
      ev.hook = HookName.GetCredentials ∧ ev.doneError ≠ none ∧
        line ∈ ev.doneLines (Driver c l details)) := by
  constructor
  · intro h hh s t0 d t1 hd
    simp only [Driver_OnGetCredentials] at hh
    split_ifs at hh with hb
    · cases hh
      simp [OnGetCredentials, hd, Logger.Error]
  · intro ev line hmem hlev
    cases ev <;>
      simp [Event.lines, Event.startLines, Event.recvLines, Event.doneLines, runStart, runDone]
        at hmem <;>
      split_ifs at hmem <;>
      simp [OnNetRead, OnNetWrite, OnNetDial, OnNetClose, OnConnTake, OnConnUsagesChange,
      OnConnStateChange, OnRepeaterWakeUp, OnConnInvoke, OnConnNewStream, OnClusterInit,
      OnClusterClose, OnClusterGet, OnClusterInsert, OnClusterRemove, OnClusterUpdate,
      OnPessimizeNode, OnGetCredentials, Logger.Debug, Logger.Info, Logger.Warn, Logger.Error] at hmem <;>
      (try split_ifs at hmem) <;>
      simp [Event.hook, Event.doneError] at hmem ⊢ <;>
      first
        | (subst hmem; simp_all)
        | (rcases hmem with h | h <;> subst h <;>
            simp_all [Event.doneLines, runDone, OnGetCredentials, Logger.Error])
        | (rcases hmem with h | h | h <;> subst h <;> simp_all)

/-- Witness of C10: with the credentials category enabled, the closure called with the
error `denied` emits one line at error level. -/
theorem C10_only_credentials_failure_is_error_witness :
    ∃ line, ((OnGetCredentials sampleDeps (blockLogger ⟨"app"⟩ "credentials")) ⟨⟩ 10).2
        ⟨"secret123", some ⟨"denied"⟩⟩ 25 = [line] ∧ line.level = Level.error :=
  (C10_only_credentials_failure_is_error sampleDeps ⟨"app"⟩ 8).1
    (OnGetCredentials sampleDeps (blockLogger ⟨"app"⟩ "credentials")) rfl ⟨⟩ 10
    ⟨"secret123", some ⟨"denied"⟩⟩ 25 (by decide)

end YdbZap
